import Mathlib

/-!
Verification of the RightLight trip-point interpolation and transition-scheduling
engine (custom_components/right_light/right_light.py) against its specification.

Shallow embedding conventions:
* Timestamps are modelled as integer seconds from today's local midnight
  (the Python code uses microsecond-precision datetimes; every trip point the
  Curve Builder produces lies on a whole second, and `timedelta.seconds`
  truncates to whole seconds, so integer seconds capture the code's arithmetic
  at the granularity the claims speak about).
* Python float arithmetic on brightness / kelvin / ratios is modelled with
  exact rationals.
* A trip-point value is a plain list of rationals, exactly as the Python code
  stores `[kelvin, brightness_cap]` or `[r, g, b]` lists; list indexing is
  modelled with `List.getD` (the out-of-range default is never reached in the
  shapes the code builds).
* `timedelta.seconds` on a sub-day difference equals the difference mod 86400,
  which `Int.emod` reproduces exactly.
* The asyncio machinery is modelled synchronously: `turn_on` returns the
  mutated controller state, the list of device commands issued immediately,
  the cancellable handles registered via `_addSched`, and the exception (if
  any) that escaped.  Cancelling a handle removes it from the list, exactly
  like `_cancelSched`'s pop-and-cancel loop.
* The once-per-day curve rebuild in `_getNow` is not modelled; all claims are
  about behaviour within one already-built day, and the Curve Builder itself
  (`defineTripPoints` / `enumerateTripPoints`) is embedded separately below.
-/

namespace RightLight

/-- `self._ct_high = 5000`. -/
def ctHigh : ℚ := 5000

/-- `self._ct_scalar = 0.35`. -/
def ctScalar : ℚ := 35 / 100

/-- `self._br_over_ct_mult = 6`. -/
def brOverCtMult : ℚ := 6

/-- `self.on_transition = 0.2`. -/
def onTransition : ℚ := 1 / 5

/-- `self.off_transition = 0.2`. -/
def offTransition : ℚ := 1 / 5

/-- One trip point: `[timestamp, value]` where the value is a plain list of
numbers (`[kelvin, brightness_cap]` for the Normal curve, `[r, g, b]` for the
palette curves), as stored by `defineTripPoints`. -/
abbrev TripPoint := ℤ × List ℚ

/-- A mode's curve: the ordered list `self.trip_points[mode]`. -/
abbrev Curve := List TripPoint

/-- The keyword arguments of `turn_on`, each `none` when the caller omitted it
(`kwargs.get` supplies the default at the use site, mirrored by `Option.getD`
in `turn_on` below). -/
structure TurnOnArgs where
  mode : Option String := none
  brightness : Option ℚ := none
  brightnessOverride : Option ℚ := none
  transition : Option ℚ := none
  nocancel : Bool := false
deriving DecidableEq

/-- Payload of a scheduled (cancellable) future action created by
`self._hass.loop.create_task(self.delay_run(...))`:
either a deferred `light.turn_on` service call snapping to the next trip point,
or a deferred recursive `self.turn_on` re-arm with the recorded kwargs. -/
inductive TaskPayload where
  | snapCT (brightness kelvin transition : ℚ)
  | snapRGB (brightness : ℚ) (rgb : List ℚ) (transition : ℚ)
  | reArm (args : TurnOnArgs)
deriving DecidableEq

/-- A cancellable handle held in `self._currSched`.  `hid` is a creation
serial number (fresh handles get increasing ids), `delay` the seconds passed
to `delay_run`. -/
structure Handle where
  hid : ℕ
  delay : ℚ
  payload : TaskPayload
deriving DecidableEq

/-- A device command issued immediately (awaited) by the engine. -/
inductive DeviceCmd where
  | turnOnCT (brightness kelvin transition : ℚ)
  | turnOnRGB (brightness : ℚ) (rgb : List ℚ) (transition : ℚ)
  | turnOff (transition : ℚ)
deriving DecidableEq

/-- The mutable per-entity state of a `RightLight` object used by `turn_on`:
`self._mode`, `self._brightness`, `self._brightness_override`,
`self.trip_points` (an association list modelling the Python dict) and
`self._currSched` plus the freshness counter for handle ids. -/
structure RLState where
  mode : String
  brightness : ℚ
  brightnessOverride : ℚ
  tripPoints : List (String × Curve)
  currSched : List Handle
  nextHid : ℕ
deriving DecidableEq

/-- The Python exception escaping `turn_on`: a `KeyError` from
`self.trip_points[self._mode]` when the mode is not a key of the dict.
(The source defines no error type of its own; in particular no
`CurveExhausted` exception exists anywhere in it.) -/
inductive RLError where
  | keyError (mode : String)
deriving DecidableEq

/-- Result of one `turn_on` invocation: final state, device commands issued
directly (in order), and the exception that escaped, if any.  Commands and
schedule mutations performed before the raise are retained, exactly as in
Python. -/
structure Outcome where
  state : RLState
  commands : List DeviceCmd
  error : Option RLError
deriving DecidableEq

/-- Dict lookup `self.trip_points[mode]`, `none` modelling the `KeyError`
case. -/
def lookupCurve : List (String × Curve) → String → Option Curve
  | [], _ => none
  | (k, v) :: rest, m => if k = m then some v else lookupCurve rest m

/-- The scan loop body of

```
for next in range(0, len(self.trip_points[self._mode])):
    if self.trip_points[self._mode][next][0] >= self.now:
        break
```

`i` is the value of `next` at the head of the remaining list.  When the list
is exhausted without a break, Python leaves the loop variable at its final
value `len - 1`, which the `[] => i - 1` case reproduces (for the empty curve
Python would raise `NameError`; no claim touches an empty curve). -/
def scanAux (now : ℤ) : Curve → ℕ → ℕ
  | [], i => i - 1
  | p :: rest, i => if now ≤ p.1 then i else scanAux now rest (i + 1)

/-- The value of `next` after the scan loop. -/
def scanNext (tps : Curve) (now : ℤ) : ℕ := scanAux now tps 0

/-- Python list indexing, including the negative-index wrap-around that
`turn_on` exercises through `prev = next - 1` when `next = 0`:
`tps[-1]` is the last element.  (Indices below `-len` or at/above `len`
would raise `IndexError` in Python; they are never reached by the code paths
modelled here, and `getD` supplies a junk default.) -/
def pyGet (tps : Curve) (i : ℤ) : TripPoint :=
  if i < 0 then tps.getD (tps.length - (-i).toNat) (0, [])
  else tps.getD i.toNat (0, [])

/-- `next` as chosen by the scan (`nextIdx`), then
`prev_time = self.trip_points[mode][prev][0]` and
`next_time = self.trip_points[mode][next][0]` with `prev = next - 1`. -/
def nextIdx (tps : Curve) (now : ℤ) : ℕ := scanNext tps now

/-- `next_time`. -/
def nextTimeOf (tps : Curve) (now : ℤ) : ℤ := (pyGet tps (nextIdx tps now : ℤ)).1

/-- `prev_time` (with Python `tps[-1]` wrap when `next = 0`). -/
def prevTimeOf (tps : Curve) (now : ℤ) : ℤ := (pyGet tps ((nextIdx tps now : ℤ) - 1)).1

/-- `time_ratio = (self.now - prev_time) / (next_time - prev_time)` (float
division of timedeltas, exact on rationals; Python would raise
`ZeroDivisionError` on a degenerate bracket, which no built curve produces). -/
def timeRatioOf (tps : Curve) (now : ℤ) : ℚ :=
  ((now - prevTimeOf tps now : ℤ) : ℚ) / ((nextTimeOf tps now - prevTimeOf tps now : ℤ) : ℚ)

/-- `time_rem = (next_time - self.now).seconds`: the `seconds` field of a
normalized timedelta, i.e. the difference mod 86400. -/
def timeRemOf (tps : Curve) (now : ℤ) : ℤ := (nextTimeOf tps now - now) % 86400

/-- All intermediate values of the `Normal` branch of `turn_on`
(source lines 90-125), in code order. -/
structure NormalCalc where
  brPrev : ℚ
  ctPrev : ℚ
  brNext0 : ℚ
  ctNext : ℚ
  brRaw : ℚ
  ctRaw : ℚ
  br : ℚ
  ct : ℚ
  brNext : ℚ

/-- The `Normal`-branch computation on the two bracketing values
`vPrev = trip_points["Normal"][prev][1]` and
`vNext = trip_points["Normal"][next][1]`:

* brightness cap normalized to a fraction and scaled by
  `brightness + brightness_override`;
* derived colour temperature
  `ct_max - (ct_high - ct_max) * (1 - br_max) * ct_scalar`;
* linear interpolation of both by `time_ratio`;
* excess brightness above 255 clamped and pushed into `ct` with
  multiplier `br_over_ct_mult`;
* the next point's brightness clamped to 255 for the snap step. -/
def mkNormalCalc (vPrev vNext : List ℚ) (timeRatio brightness override : ℚ) : NormalCalc :=
  let brMaxPrev := vPrev.getD 1 0 / 255
  let brPrev := brMaxPrev * (brightness + override)
  let ctMaxPrev := vPrev.getD 0 0
  let ctPrev := ctMaxPrev - (ctHigh - ctMaxPrev) * (1 - brMaxPrev) * ctScalar
  let brMaxNext := vNext.getD 1 0 / 255
  let brNext0 := brMaxNext * (brightness + override)
  let ctMaxNext := vNext.getD 0 0
  let ctNext := ctMaxNext - (ctHigh - ctMaxNext) * (1 - brMaxNext) * ctScalar
  let brRaw := (brNext0 - brPrev) * timeRatio + brPrev
  let ctRaw := (ctNext - ctPrev) * timeRatio + ctPrev
  let br := if brRaw > 255 then 255 else brRaw
  let ct := if brRaw > 255 then ctRaw + (brRaw - 255) * brOverCtMult else ctRaw
  let brNextClamped := if brNext0 > 255 then 255 else brNext0
  { brPrev := brPrev, ctPrev := ctPrev, brNext0 := brNext0, ctNext := ctNext,
    brRaw := brRaw, ctRaw := ctRaw, br := br, ct := ct, brNext := brNextClamped }

/-- The `Normal`-branch computation applied at the bracket located for `now`. -/
def normalCalcOf (tps : Curve) (now : ℤ) (brightness override : ℚ) : NormalCalc :=
  mkNormalCalc (pyGet tps ((nextIdx tps now : ℤ) - 1)).2 (pyGet tps (nextIdx tps now : ℤ)).2
    (timeRatioOf tps now) brightness override

/-- The RGB-branch channel interpolation (source lines 199-202):
each channel independently `prev + (next - prev) * time_ratio`. -/
structure RgbCalc where
  rNow : ℚ
  gNow : ℚ
  bNow : ℚ

/-- RGB interpolation on the bracketing values. -/
def mkRgbCalc (prevRgb nextRgb : List ℚ) (timeRatio : ℚ) : RgbCalc :=
  { rNow := prevRgb.getD 0 0 + (nextRgb.getD 0 0 - prevRgb.getD 0 0) * timeRatio,
    gNow := prevRgb.getD 1 0 + (nextRgb.getD 1 0 - prevRgb.getD 1 0) * timeRatio,
    bNow := prevRgb.getD 2 0 + (nextRgb.getD 2 0 - prevRgb.getD 2 0) * timeRatio }

/-- RGB interpolation at the bracket located for `now`. -/
def rgbCalcOf (tps : Curve) (now : ℤ) : RgbCalc :=
  mkRgbCalc (pyGet tps ((nextIdx tps now : ℤ) - 1)).2 (pyGet tps (nextIdx tps now : ℤ)).2
    (timeRatioOf tps now)

/-- Shallow embedding of `RightLight.turn_on` (source lines 42-265).

Inputs: the current state, the clock value `_getNow` stores into `self.now`
(seconds from local midnight), the value drawn by `random.randrange(1, 5)`,
and the keyword arguments.

Path, exactly as in the source:
1. unless `nocancel`, `_cancelSched()` empties `self._currSched`;
2. `self._mode`, `self._brightness`, `self._brightness_override` and the
   transition are taken from kwargs with defaults `"Normal"`, `255`, `0`,
   `self.on_transition`;
3. `brightness == 0` degrades to `disable_and_turn_off` (which cancels the
   schedule unconditionally, records brightness 0 and issues `light.turn_off`
   with the `off_transition` default);
4. `self.trip_points[self._mode]` raises `KeyError` for an unknown mode —
   state mutations already performed are kept, no command is issued;
5. the scan locates `next`/`prev`, and the mode branch issues the awaited
   immediate `light.turn_on`, registers the randomly-delayed snap-to-next
   task, and registers the re-arm task with delay
   `(next_time - self.now).seconds + 1`.  The Normal-branch re-arm passes
   `brightness`/`brightness_override`/`nocancel=True` (mode omitted defaults
   to `"Normal"` on re-entry); the RGB-branch re-arm passes
   `mode`/`brightness`/`nocancel=True` and omits `brightness_override`. -/
def turn_on (st : RLState) (clockNow : ℤ) (rand : ℚ) (args : TurnOnArgs) : Outcome :=
  let sched0 := if args.nocancel then st.currSched else []
  let mode := args.mode.getD "Normal"
  let brightness := args.brightness.getD 255
  let override := args.brightnessOverride.getD 0
  let thisTransition := args.transition.getD onTransition
  let st1 : RLState := { st with
    mode := mode, brightness := brightness,
    brightnessOverride := override, currSched := sched0 }
  if brightness = 0 then
    { state := { st1 with currSched := [], brightness := 0 },
      commands := [DeviceCmd.turnOff (args.transition.getD offTransition)],
      error := none }
  else
    match lookupCurve st1.tripPoints mode with
    | none => { state := st1, commands := [], error := some (RLError.keyError mode) }
    | some tps =>
      let timeRem : ℤ := timeRemOf tps clockNow
      if mode = "Normal" then
        let c := normalCalcOf tps clockNow brightness override
        let h1 : Handle := ⟨st1.nextHid, rand, TaskPayload.snapCT c.brNext c.ctNext (timeRem : ℚ)⟩
        let h2 : Handle := ⟨st1.nextHid + 1, (timeRem : ℚ) + 1,
          TaskPayload.reArm { brightness := some brightness,
                              brightnessOverride := some override, nocancel := true }⟩
        { state := { st1 with currSched := sched0 ++ [h1, h2], nextHid := st1.nextHid + 2 },
          commands := [DeviceCmd.turnOnCT c.br c.ct thisTransition],
          error := none }
      else
        let c := rgbCalcOf tps clockNow
        let nextRgb := (pyGet tps (nextIdx tps clockNow : ℤ)).2
        let h1 : Handle := ⟨st1.nextHid, rand, TaskPayload.snapRGB brightness nextRgb (timeRem : ℚ)⟩
        let h2 : Handle := ⟨st1.nextHid + 1, (timeRem : ℚ) + 1,
          TaskPayload.reArm { mode := some mode, nocancel := true,
                              brightness := some brightness }⟩
        { state := { st1 with currSched := sched0 ++ [h1, h2], nextHid := st1.nextHid + 2 },
          commands := [DeviceCmd.turnOnRGB brightness [c.rNow, c.gNow, c.bNow] thisTransition],
          error := none }

/-- The `Normal` curve built by `defineTripPoints` (source lines 381-404),
parametrized by the day anchors `_getNow` computes: local midnight (0),
sunrise, sunset, 22:30 and 23:59:59, all in seconds from midnight. -/
def defineTripPointsNormal (midnightEarly sunrise sunset tenThirty midnightLate : ℤ) : Curve :=
  [ (midnightEarly, [2500, 150]),
    (sunrise - 3600, [2500, 120]),
    (sunrise - 1800, [2700, 170]),
    (sunrise, [3200, 155]),
    (sunrise + 1800, [4700, 255]),
    (sunset - 5400, [4200, 255]),
    (sunset - 1800, [3200, 255]),
    (sunset, [3000, 255]),
    (tenThirty, [2700, 255]),
    (midnightLate, [2500, 150]) ]

/-- The cyclic-palette walk of `enumerateTripPoints` (source lines 477-490),
starting from `temp` with the palette pointer at `ptr`:

```
while temp < self.midnight_late:
    toreturn.append([temp, trip_points[this_ptr]])
    temp = temp + time_step
    this_ptr += 1
    if this_ptr >= len(trip_points):
        this_ptr = 0
```

The `0 < step` guard makes the recursion terminate; every call site passes a
positive step (a zero or negative step would loop forever in Python). -/
def enumFrom (midnightLate step : ℤ) (palette : List (List ℚ)) (temp : ℤ) (ptr : ℕ) : Curve :=
  if h : temp < midnightLate ∧ 0 < step then
    (temp, palette.getD ptr []) ::
      enumFrom midnightLate step palette (temp + step)
        (if ptr + 1 ≥ palette.length then 0 else ptr + 1)
  else []
termination_by (midnightLate - temp).toNat
decreasing_by omega

/-- `enumerateTripPoints`: the walk from `self.midnight_early` with the
pointer starting at 0. -/
def enumerateTripPoints (midnightEarly midnightLate step : ℤ) (palette : List (List ℚ)) : Curve :=
  enumFrom midnightLate step palette midnightEarly 0

/-! ## Properties of the bracketing scan -/

/-- `pyGet` at a non-negative index is plain list indexing. -/
theorem pyGet_natCast (tps : Curve) (n : ℕ) : pyGet tps (n : ℤ) = tps.getD n (0, []) := by
  simp [pyGet]

/-- If some element of the remaining list satisfies the break test, the scan
stops at the first such element (offset from the running index `i`). -/
theorem scanAux_found (now : ℤ) :
    ∀ (l : Curve) (i : ℕ), (∃ p ∈ l, now ≤ p.1) →
      ∃ j, j < l.length ∧ scanAux now l i = i + j ∧
        now ≤ (l.getD j (0, [])).1 ∧ ∀ m, m < j → (l.getD m (0, [])).1 < now := by
  intro l
  induction l with
  | nil => intro i h; simp at h
  | cons p rest ih =>
    intro i h
    by_cases hp : now ≤ p.1
    · refine ⟨0, by simp, ?_, by simpa using hp, ?_⟩
      · simp [scanAux, hp]
      · intro m hm; omega
    · have hex : ∃ q ∈ rest, now ≤ q.1 := by
        obtain ⟨q, hq, hle⟩ := h
        rcases List.mem_cons.mp hq with rfl | hq
        · exact absurd hle hp
        · exact ⟨q, hq, hle⟩
      obtain ⟨j, hj, heq, hle, hmin⟩ := ih (i + 1) hex
      refine ⟨j + 1, by simpa using Nat.succ_lt_succ hj, ?_, by simpa using hle, ?_⟩
      · rw [scanAux, if_neg hp, heq]; omega
      · intro m hm
        cases m with
        | zero => simpa using not_le.mp hp
        | succ m => simpa using hmin m (by omega)

/-- If no element of the remaining list satisfies the break test, the loop
runs off the end and the loop variable keeps its final value. -/
theorem scanAux_exhausted (now : ℤ) :
    ∀ (l : Curve) (i : ℕ), (∀ p ∈ l, p.1 < now) → scanAux now l i = i + l.length - 1 := by
  intro l
  induction l with
  | nil => intro i h; simp [scanAux]
  | cons p rest ih =>
    intro i h
    have hp : ¬ now ≤ p.1 := not_le.mpr (h p (by simp))
    rw [scanAux, if_neg hp, ih (i + 1) (fun q hq => h q (by simp [hq]))]
    simp

/-- Claim C1, counterexample: on the built-style curve
`[(0,[2500,150]), (100,[2500,120]), (200,[2700,170])]` with `now = 100`
(inside the day span, exactly at the second key point), the scan picks
`next = 1`, `prev = 0`, but the claimed strict bracket
`curve[prev].timestamp ≤ now < curve[next].timestamp` is false:
`now` equals `curve[next].timestamp`. -/
theorem c1_counterexample :
    scanNext [((0 : ℤ), [(2500 : ℚ), 150]), (100, [2500, 120]), (200, [2700, 170])] 100 = 1 ∧
    ¬ ((pyGet [((0 : ℤ), [(2500 : ℚ), 150]), (100, [2500, 120]), (200, [2700, 170])]
          ((1 : ℤ) - 1)).1 ≤ 100 ∧
       100 < (pyGet [((0 : ℤ), [(2500 : ℚ), 150]), (100, [2500, 120]), (200, [2700, 170])]
          ((1 : ℕ) : ℤ)).1) := by
  decide

/-- Claim C1 (amended): for a built curve (strictly increasing timestamps) and
any `now` strictly after the first key point and at or before the last one,
the scan yields `next` = the index of the first key point with timestamp
`≥ now` (every earlier key point is `< now`), `prev = next - 1 ≥ 0`, and the
bracket holds with the inequalities placed as the code makes them:
`curve[prev].timestamp < now ≤ curve[next].timestamp`.  (The original claim's
`prev ≤ now < next` placement fails whenever `now` lies exactly on a key
point, and at `now` = first timestamp the code wraps `prev` to `-1`.) -/
theorem c1_bracketing (tps : Curve) (now : ℤ)
    (_hchain : List.Chain' (fun p q : TripPoint => p.1 < q.1) tps)
    (hne : tps ≠ [])
    (h0 : (tps.getD 0 (0, [])).1 < now)
    (hlast : now ≤ (tps.getD (tps.length - 1) (0, [])).1) :
    1 ≤ scanNext tps now ∧ scanNext tps now < tps.length ∧
    (∀ m, m < scanNext tps now → (tps.getD m (0, [])).1 < now) ∧
    (pyGet tps ((scanNext tps now : ℤ) - 1)).1 < now ∧
    now ≤ (pyGet tps (scanNext tps now : ℤ)).1 := by
  have hlen : 0 < tps.length := List.length_pos.mpr hne
  have hmem : tps.getD (tps.length - 1) (0, []) ∈ tps := by
    rw [List.getD_eq_getElem tps (0, []) (by omega)]
    exact List.getElem_mem _
  obtain ⟨j, hj, heq, hle, hmin⟩ := scanAux_found now tps 0 ⟨_, hmem, hlast⟩
  have hnext : scanNext tps now = j := by simpa [scanNext] using heq
  have hj1 : 1 ≤ j := by
    rcases Nat.eq_zero_or_pos j with rfl | h
    · exact absurd hle (not_le.mpr h0)
    · exact h
  refine ⟨by omega, by omega, by simpa [hnext] using hmin, ?_, ?_⟩
  · have hcast : (scanNext tps now : ℤ) - 1 = ((j - 1 : ℕ) : ℤ) := by
      rw [hnext]; omega
    rw [hcast, pyGet_natCast]
    exact hmin (j - 1) (by omega)
  · rw [hnext, pyGet_natCast]
    exact hle

/-- Witness for c1_bracketing: the three-point curve above at `now = 150`
(`next = 2`, `prev = 1`, bracket `100 < 150 ≤ 200`). -/
theorem c1_bracketing_witness :
    1 ≤ scanNext [((0 : ℤ), [(2500 : ℚ), 150]), (100, [2500, 120]), (200, [2700, 170])] 150 ∧
    scanNext [((0 : ℤ), [(2500 : ℚ), 150]), (100, [2500, 120]), (200, [2700, 170])] 150 <
      [((0 : ℤ), [(2500 : ℚ), 150]), (100, [2500, 120]), (200, [2700, 170])].length ∧
    (∀ m, m < scanNext [((0 : ℤ), [(2500 : ℚ), 150]), (100, [2500, 120]), (200, [2700, 170])] 150 →
      ([((0 : ℤ), [(2500 : ℚ), 150]), (100, [2500, 120]), (200, [2700, 170])].getD m (0, [])).1 < 150) ∧
    (pyGet [((0 : ℤ), [(2500 : ℚ), 150]), (100, [2500, 120]), (200, [2700, 170])]
      ((scanNext [((0 : ℤ), [(2500 : ℚ), 150]), (100, [2500, 120]), (200, [2700, 170])] 150 : ℤ) - 1)).1 < 150 ∧
    150 ≤ (pyGet [((0 : ℤ), [(2500 : ℚ), 150]), (100, [2500, 120]), (200, [2700, 170])]
      (scanNext [((0 : ℤ), [(2500 : ℚ), 150]), (100, [2500, 120]), (200, [2700, 170])] 150 : ℤ)).1 :=
  c1_bracketing _ 150 (by simp [List.chain'_cons]) (by decide) (by decide) (by decide)

/-! ## Curve exhaustion (C2) -/

/-- Concrete two-point curve whose last timestamp (100) is before `now = 150`,
used to exercise the exhausted scan. -/
def exhaustedState : RLState :=
  { mode := "Off", brightness := 0, brightnessOverride := 0,
    tripPoints := [("Normal", [(0, [2500, 150]), (100, [2500, 120])])],
    currSched := [], nextHid := 0 }

/-- Claim C2, counterexample: with the two-point curve above and `now = 150`
(no key point has timestamp `≥ now`), the scan leaves `next = 1 = length - 1`,
not `length = 2`; `turn_on` raises no error at all (no `CurveExhausted` exists
in the code) and issues a device command anyway. -/
theorem c2_counterexample :
    scanNext [((0 : ℤ), [(2500 : ℚ), 150]), (100, [2500, 120])] 150 ≠
      [((0 : ℤ), [(2500 : ℚ), 150]), (100, [2500, 120])].length ∧
    (turn_on exhaustedState 150 1 {}).error = none ∧
    (turn_on exhaustedState 150 1 {}).commands ≠ [] := by
  decide

/-- Claim C2 (amended): if the scan finds no key point with timestamp `≥ now`,
the Python loop leaves `next` at its final value `length - 1` (not `length`),
no error of any kind is raised, and `turn_on` proceeds to extrapolate from the
last bracketing pair, issuing exactly one device command.  (The curve must
have at least two points — every built curve does — or Python would divide by
zero in `time_ratio`.) -/
theorem c2_curve_exhausted (st : RLState) (now : ℤ) (rand : ℚ) (args : TurnOnArgs) (tps : Curve)
    (hlookup : lookupCurve st.tripPoints (args.mode.getD "Normal") = some tps)
    (hbr : args.brightness.getD 255 ≠ 0)
    (_hlen : 2 ≤ tps.length)
    (hall : ∀ p ∈ tps, p.1 < now) :
    scanNext tps now = tps.length - 1 ∧
    (turn_on st now rand args).error = none ∧
    (turn_on st now rand args).commands.length = 1 := by
  refine ⟨?_, ?_, ?_⟩
  · simpa [scanNext] using scanAux_exhausted now tps 0 hall
  · simp only [turn_on]
    simp only [hbr, if_false, hlookup]
    split <;> rfl
  · simp only [turn_on]
    simp only [hbr, if_false, hlookup]
    split <;> rfl

/-- Witness for c2_curve_exhausted at the concrete exhausted state. -/
theorem c2_curve_exhausted_witness :
    scanNext [((0 : ℤ), [(2500 : ℚ), 150]), (100, [2500, 120])] 150 =
      [((0 : ℤ), [(2500 : ℚ), 150]), (100, [2500, 120])].length - 1 ∧
    (turn_on exhaustedState 150 1 {}).error = none ∧
    (turn_on exhaustedState 150 1 {}).commands.length = 1 :=
  c2_curve_exhausted exhaustedState 150 1 {} _ (by decide) (by decide) (by decide) (by decide)

/-! ## Unknown mode (C3) -/

/-- A state with one pending handle, to observe what an unknown-mode call does
to the schedule collection. -/
def pendingState : RLState :=
  { mode := "Off", brightness := 0, brightnessOverride := 0,
    tripPoints := [("Normal", [(0, [2500, 150]), (100, [2500, 120])])],
    currSched := [⟨0, 1, TaskPayload.reArm {}⟩], nextHid := 1 }

/-- Claim C3, counterexample: calling `turn_on` with unknown mode `"Foo"` on a
state holding one pending handle.  The call does fail with the mode lookup
error and issues no command, but the pending-schedule collection is NOT
unchanged: `_cancelSched()` runs before the `KeyError`, so the collection is
emptied. -/
theorem c3_counterexample :
    (turn_on pendingState 50 1 { mode := some "Foo" }).error =
      some (RLError.keyError "Foo") ∧
    (turn_on pendingState 50 1 { mode := some "Foo" }).commands = [] ∧
    (turn_on pendingState 50 1 { mode := some "Foo" }).state.currSched ≠
      pendingState.currSched := by
  decide

/-- Claim C3 (amended): for a mode absent from the built curve set, a
`turn_on` call with nonzero requested brightness and without the no-cancel
flag fails with the mode-lookup error (`KeyError`), issues no device command,
and leaves the pending-schedule collection EMPTY — cleared by the
cancellation that precedes the failing lookup — rather than unchanged.
(With brightness 0 the call would instead degrade to
`disable_and_turn_off` and issue an off command without touching the curves.) -/
theorem c3_unknown_mode (st : RLState) (now : ℤ) (rand : ℚ) (args : TurnOnArgs)
    (hlookup : lookupCurve st.tripPoints (args.mode.getD "Normal") = none)
    (hbr : args.brightness.getD 255 ≠ 0)
    (hnc : args.nocancel = false) :
    (turn_on st now rand args).error =
      some (RLError.keyError (args.mode.getD "Normal")) ∧
    (turn_on st now rand args).commands = [] ∧
    (turn_on st now rand args).state.currSched = [] := by
  simp only [turn_on]
  simp [hbr, if_false, hlookup, hnc]

/-- Witness for c3_unknown_mode at the concrete pending state. -/
theorem c3_unknown_mode_witness :
    (turn_on pendingState 50 1 { mode := some "Foo" }).error =
      some (RLError.keyError (({ mode := some "Foo" } : TurnOnArgs).mode.getD "Normal")) ∧
    (turn_on pendingState 50 1 { mode := some "Foo" }).commands = [] ∧
    (turn_on pendingState 50 1 { mode := some "Foo" }).state.currSched = [] :=
  c3_unknown_mode pendingState 50 1 { mode := some "Foo" } (by decide) (by decide) (by decide)

/-! ## Normal-mode value computation (C4, C5) -/

/-- A state holding the built `Normal` curve for a day with sunrise 06:00 and
sunset 18:00 (in seconds from midnight), as `defineTripPoints` constructs it. -/
def midnightState : RLState :=
  { mode := "Off", brightness := 0, brightnessOverride := 0,
    tripPoints := [("Normal", defineTripPointsNormal 0 21600 64800 81000 86399)],
    currSched := [], nextHid := 0 }

/-- Claim C4: the derived colour temperature the code computes at a key point
`[kelvin, cap]` is exactly `kelvin - (5000 - kelvin) * (1 - cap/255) * 0.35`
(both at the previous and at the next bracketing point); and in the concrete
scenario — built Normal curve with `(2500 K, 150)` at midnight and
`(2500 K, 120)` at sunrise-60m, requested brightness 255, override 0, `now`
exactly midnight — the immediate command carries brightness
`150 = (150/255) * 255` and the kelvin given by that formula at cap 150. -/
theorem c4_ct_formula_and_midnight_scenario :
    (∀ kelvin cap kelvin2 cap2 ratio brightness override : ℚ,
      (mkNormalCalc [kelvin, cap] [kelvin2, cap2] ratio brightness override).ctPrev =
        kelvin - (5000 - kelvin) * (1 - cap / 255) * (35 / 100) ∧
      (mkNormalCalc [kelvin, cap] [kelvin2, cap2] ratio brightness override).ctNext =
        kelvin2 - (5000 - kelvin2) * (1 - cap2 / 255) * (35 / 100)) ∧
    (turn_on midnightState 0 1 { brightness := some 255, brightnessOverride := some 0 }).commands =
      [DeviceCmd.turnOnCT (150 / 255 * 255)
        (2500 - (5000 - 2500) * (1 - 150 / 255) * (35 / 100)) onTransition] := by
  constructor
  · intro kelvin cap kelvin2 cap2 ratio brightness override
    constructor <;> simp [mkNormalCalc, ctHigh, ctScalar]
  · have hl : lookupCurve midnightState.tripPoints "Normal" =
        some (defineTripPointsNormal 0 21600 64800 81000 86399) := by decide
    have h1 : pyGet (defineTripPointsNormal 0 21600 64800 81000 86399)
        ((nextIdx (defineTripPointsNormal 0 21600 64800 81000 86399) 0 : ℤ) - 1) =
        (86399, [2500, 150]) := by decide
    have h2 : pyGet (defineTripPointsNormal 0 21600 64800 81000 86399)
        (nextIdx (defineTripPointsNormal 0 21600 64800 81000 86399) 0 : ℤ) =
        (0, [2500, 150]) := by decide
    have h3 : timeRatioOf (defineTripPointsNormal 0 21600 64800 81000 86399) 0 = 1 := by
      rw [timeRatioOf,
        show prevTimeOf (defineTripPointsNormal 0 21600 64800 81000 86399) 0 = 86399 from by decide,
        show nextTimeOf (defineTripPointsNormal 0 21600 64800 81000 86399) 0 = 0 from by decide]
      norm_num
    simp only [turn_on]
    simp only [hl, Option.getD_some, Option.getD_none]
    norm_num [normalCalcOf, h1, h2, h3, mkNormalCalc, List.getD, ctHigh, ctScalar, onTransition]

/-- Unfolding of the brightness clamp in the Normal branch:
`br = 255 if brRaw > 255 else brRaw`. -/
theorem mkNormalCalc_br (vP vN : List ℚ) (r b o : ℚ) :
    (mkNormalCalc vP vN r b o).br =
      if (mkNormalCalc vP vN r b o).brRaw > 255 then 255
      else (mkNormalCalc vP vN r b o).brRaw := rfl

/-- Unfolding of the excess-into-ct push in the Normal branch. -/
theorem mkNormalCalc_ct (vP vN : List ℚ) (r b o : ℚ) :
    (mkNormalCalc vP vN r b o).ct =
      if (mkNormalCalc vP vN r b o).brRaw > 255 then
        (mkNormalCalc vP vN r b o).ctRaw +
          ((mkNormalCalc vP vN r b o).brRaw - 255) * brOverCtMult
      else (mkNormalCalc vP vN r b o).ctRaw := rfl

/-- Unfolding of the next-point brightness clamp in the Normal branch. -/
theorem mkNormalCalc_brNext (vP vN : List ℚ) (r b o : ℚ) :
    (mkNormalCalc vP vN r b o).brNext =
      if (mkNormalCalc vP vN r b o).brNext0 > 255 then 255
      else (mkNormalCalc vP vN r b o).brNext0 := rfl

/-- Claim C5: in Normal mode the two clamps are independent conditionals —
whenever the interpolated brightness exceeds 255, the immediate command
carries brightness clamped to 255 with the excess pushed into colour
temperature via `ct += excess * 6` (`brOverCtMult = 6`); and whenever the
next key point's brightness exceeds 255, the value used for the snap-to-next
step is clamped to 255. -/
theorem c5_brightness_clamp (st : RLState) (now : ℤ) (rand : ℚ) (args : TurnOnArgs) (tps : Curve)
    (hm : args.mode.getD "Normal" = "Normal")
    (hlookup : lookupCurve st.tripPoints (args.mode.getD "Normal") = some tps)
    (hbr : args.brightness.getD 255 ≠ 0) :
    ((normalCalcOf tps now (args.brightness.getD 255) (args.brightnessOverride.getD 0)).brRaw > 255 →
      (turn_on st now rand args).commands =
        [DeviceCmd.turnOnCT 255
          ((normalCalcOf tps now (args.brightness.getD 255) (args.brightnessOverride.getD 0)).ctRaw +
            ((normalCalcOf tps now (args.brightness.getD 255) (args.brightnessOverride.getD 0)).brRaw - 255) *
              brOverCtMult)
          (args.transition.getD onTransition)]) ∧
    ((normalCalcOf tps now (args.brightness.getD 255) (args.brightnessOverride.getD 0)).brNext0 > 255 →
      (normalCalcOf tps now (args.brightness.getD 255) (args.brightnessOverride.getD 0)).brNext = 255) := by
  constructor
  · intro h1
    rw [hm] at hlookup
    simp only [turn_on]
    simp only [hbr, if_false, hlookup, hm, if_true]
    rw [normalCalcOf] at h1
    rw [normalCalcOf, mkNormalCalc_br, mkNormalCalc_ct]
    rw [if_pos h1, if_pos h1]
  · intro h2
    rw [normalCalcOf] at h2
    rw [normalCalcOf, mkNormalCalc_brNext, if_pos h2]

/-- Flat two-point curve with caps 255, for exercising the brightness clamp. -/
def clampCurve : Curve := [(0, [3000, 255]), (100, [3000, 255])]

/-- State holding `clampCurve` as the Normal curve. -/
def clampState : RLState :=
  { mode := "Off", brightness := 0, brightnessOverride := 0,
    tripPoints := [("Normal", clampCurve)], currSched := [], nextHid := 0 }

/-- Arguments requesting brightness 255 with override 100, so interpolated
brightness is 355 > 255. -/
def clampArgs : TurnOnArgs := { brightness := some 255, brightnessOverride := some 100 }

/-- Witness for c5_brightness_clamp on `clampCurve` at `now = 50`. -/
theorem c5_brightness_clamp_witness :
    (turn_on clampState 50 1 clampArgs).commands =
      [DeviceCmd.turnOnCT 255
        ((normalCalcOf clampCurve 50 (clampArgs.brightness.getD 255) (clampArgs.brightnessOverride.getD 0)).ctRaw +
          ((normalCalcOf clampCurve 50 (clampArgs.brightness.getD 255) (clampArgs.brightnessOverride.getD 0)).brRaw - 255) *
            brOverCtMult)
        (clampArgs.transition.getD onTransition)] ∧
    (normalCalcOf clampCurve 50 (clampArgs.brightness.getD 255) (clampArgs.brightnessOverride.getD 0)).brNext = 255 := by
  have e1 : pyGet clampCurve ((nextIdx clampCurve 50 : ℤ) - 1) = (0, [3000, 255]) := by decide
  have e2 : pyGet clampCurve (nextIdx clampCurve 50 : ℤ) = (100, [3000, 255]) := by decide
  have e3 : timeRatioOf clampCurve 50 = 1 / 2 := by
    rw [timeRatioOf, show prevTimeOf clampCurve 50 = 0 from by decide,
      show nextTimeOf clampCurve 50 = 100 from by decide]
    norm_num
  have hA : (normalCalcOf clampCurve 50 (clampArgs.brightness.getD 255)
      (clampArgs.brightnessOverride.getD 0)).brRaw > 255 := by
    rw [normalCalcOf, e1, e2, e3]
    norm_num [mkNormalCalc, List.getD, clampArgs]
  have hB : (normalCalcOf clampCurve 50 (clampArgs.brightness.getD 255)
      (clampArgs.brightnessOverride.getD 0)).brNext0 > 255 := by
    rw [normalCalcOf, e1, e2, e3]
    norm_num [mkNormalCalc, List.getD, clampArgs]
  have h := c5_brightness_clamp clampState 50 1 clampArgs clampCurve (by decide) (by decide)
    (by decide)
  exact ⟨h.1 hA, h.2 hB⟩


/-! ## Schedule-collection behaviour (C7, C8, C9) -/

/-- Exhaustive shape of `turn_on`'s effect on the schedule collection:
either the brightness-0 path (collection emptied unconditionally by
`disable_and_turn_off`), the unknown-mode path (collection is what the
initial cancellation left), or a successful path, which appends exactly two
freshly-numbered handles to what the initial cancellation left. -/
theorem turn_on_sched_shape (st : RLState) (now : ℤ) (rand : ℚ) (args : TurnOnArgs) :
    ((turn_on st now rand args).state.currSched = [] ∧
      (turn_on st now rand args).state.nextHid = st.nextHid) ∨
    ((turn_on st now rand args).state.currSched = (if args.nocancel then st.currSched else []) ∧
      (turn_on st now rand args).state.nextHid = st.nextHid) ∨
    (∃ h1 h2 : Handle,
      (turn_on st now rand args).state.currSched =
        (if args.nocancel then st.currSched else []) ++ [h1, h2] ∧
      h1.hid = st.nextHid ∧ h2.hid = st.nextHid + 1 ∧
      (turn_on st now rand args).state.nextHid = st.nextHid + 2) := by
  by_cases hb : args.brightness.getD 255 = 0
  · left
    simp [turn_on, hb]
  · cases hcase : lookupCurve st.tripPoints (args.mode.getD "Normal") with
    | none =>
      right; left
      simp [turn_on, hb, hcase]
    | some tps =>
      right; right
      by_cases hm : args.mode.getD "Normal" = "Normal"
      · rw [hm] at hcase
        simp only [turn_on, hb, if_false, hcase, hm, if_true]
        refine ⟨_, _, rfl, ?_, ?_, ?_⟩ <;> simp
      · simp only [turn_on, hb, if_false, hcase, if_neg hm]
        refine ⟨_, _, rfl, ?_, ?_, ?_⟩ <;> simp

/-- With the no-cancel flag unset, every handle present after `turn_on` is
one of the (at most two) handles created by this very call: its serial
number lies in the fresh range `[st.nextHid, nextHid after the call)`. -/
theorem turn_on_fresh (st : RLState) (now : ℤ) (rand : ℚ) (args : TurnOnArgs)
    (hnc : args.nocancel = false) :
    ∀ h ∈ (turn_on st now rand args).state.currSched,
      st.nextHid ≤ h.hid ∧ h.hid < (turn_on st now rand args).state.nextHid := by
  intro h hmem
  rcases turn_on_sched_shape st now rand args with ⟨hs, hn⟩ | ⟨hs, hn⟩ |
    ⟨h1, h2, hs, h1id, h2id, hn⟩
  · rw [hs] at hmem
    simp at hmem
  · rw [hs, hnc] at hmem
    simp at hmem
  · rw [hs, hnc] at hmem
    simp at hmem
    rw [hn]
    rcases hmem with rfl | rfl <;> omega

/-- A sequence of `turn_on` invocations threaded through the state; each list
entry holds the clock value, the random draw and the kwargs of one call. -/
def runCalls (st : RLState) (calls : List (ℤ × ℚ × TurnOnArgs)) : RLState :=
  calls.foldl (fun s c => (turn_on s c.1 c.2.1 c.2.2).state) st

/-- Claim C7: every `turn_on` call with the no-cancel flag unset first cancels
and empties the pending-schedule collection and only then arms new handles,
so after any number of consecutive such calls the collection holds only
handles created by the most recent call — their serial numbers lie in the
fresh range of that final call. -/
theorem c7_single_chain (st : RLState) (calls : List (ℤ × ℚ × TurnOnArgs))
    (c : ℤ × ℚ × TurnOnArgs)
    (hall : ∀ x ∈ calls ++ [c], x.2.2.nocancel = false) :
    ∀ h ∈ (runCalls st (calls ++ [c])).currSched,
      (runCalls st calls).nextHid ≤ h.hid ∧
      h.hid < (runCalls st (calls ++ [c])).nextHid := by
  have hc : c.2.2.nocancel = false := hall c (by simp)
  have heq : runCalls st (calls ++ [c]) = (turn_on (runCalls st calls) c.1 c.2.1 c.2.2).state := by
    simp [runCalls, List.foldl_append]
  rw [heq]
  exact turn_on_fresh (runCalls st calls) c.1 c.2.1 c.2.2 hc

/-- Witness for c7_single_chain: two consecutive default calls on the clamp
state; the first handle left in the final collection was created by the
second call (its serial lies in the second call's fresh range). -/
theorem c7_single_chain_witness :
    (runCalls clampState [((50 : ℤ), (1 : ℚ), ({} : TurnOnArgs))]).nextHid ≤
      ((runCalls clampState ([((50 : ℤ), (1 : ℚ), ({} : TurnOnArgs))] ++
          [((50 : ℤ), (1 : ℚ), ({} : TurnOnArgs))])).currSched.getD 0
        ⟨0, 0, TaskPayload.reArm {}⟩).hid ∧
    ((runCalls clampState ([((50 : ℤ), (1 : ℚ), ({} : TurnOnArgs))] ++
        [((50 : ℤ), (1 : ℚ), ({} : TurnOnArgs))])).currSched.getD 0
      ⟨0, 0, TaskPayload.reArm {}⟩).hid <
    (runCalls clampState ([((50 : ℤ), (1 : ℚ), ({} : TurnOnArgs))] ++
        [((50 : ℤ), (1 : ℚ), ({} : TurnOnArgs))])).nextHid := by
  have hlen : 0 < (runCalls clampState ([((50 : ℤ), (1 : ℚ), ({} : TurnOnArgs))] ++
      [((50 : ℤ), (1 : ℚ), ({} : TurnOnArgs))])).currSched.length := by decide
  have hmem : (runCalls clampState ([((50 : ℤ), (1 : ℚ), ({} : TurnOnArgs))] ++
        [((50 : ℤ), (1 : ℚ), ({} : TurnOnArgs))])).currSched.getD 0
      ⟨0, 0, TaskPayload.reArm {}⟩ ∈
      (runCalls clampState ([((50 : ℤ), (1 : ℚ), ({} : TurnOnArgs))] ++
        [((50 : ℤ), (1 : ℚ), ({} : TurnOnArgs))])).currSched := by
    rw [List.getD_eq_getElem _ _ hlen]
    exact List.getElem_mem _
  exact c7_single_chain clampState [((50 : ℤ), (1 : ℚ), ({} : TurnOnArgs))]
    ((50 : ℤ), (1 : ℚ), ({} : TurnOnArgs)) (by decide) _ hmem

/-- Coarse classification of a scheduled action: a deferred snap-to-next
device call, or the recursive re-arm. -/
inductive TaskKind where
  | snap
  | rearm
deriving DecidableEq

/-- The kind of a scheduled payload. -/
def taskKind : TaskPayload → TaskKind
  | .snapCT _ _ _ => .snap
  | .snapRGB _ _ _ => .snap
  | .reArm _ => .rearm

/-- Claim C8, counterexample: a successful Normal-mode cycle on the built
curve registers exactly TWO cancellable handles — the drift-correction snap
and the re-arm — not three: the immediate set is awaited inline and never
enters the collection (it appears only as the directly issued command). -/
theorem c8_counterexample :
    (turn_on midnightState 50 1 {}).state.currSched.length = 2 ∧
    (turn_on midnightState 50 1 {}).state.currSched.length ≠ 3 ∧
    ((turn_on midnightState 50 1 {}).state.currSched.map (fun h => taskKind h.payload)) =
      [TaskKind.snap, TaskKind.rearm] ∧
    (turn_on midnightState 50 1 {}).commands.length = 1 := by
  decide

/-- Claim C8 (amended): each successful `turn_on` cycle registers exactly two
of its actions as cancellable handles — the drift-correction set and the
re-arm, in that order — while the immediate set is issued and awaited
directly without being registered. -/
theorem c8_two_handles (st : RLState) (now : ℤ) (rand : ℚ) (args : TurnOnArgs) (tps : Curve)
    (hlookup : lookupCurve st.tripPoints (args.mode.getD "Normal") = some tps)
    (hbr : args.brightness.getD 255 ≠ 0) :
    (turn_on st now rand args).state.currSched.length =
      (if args.nocancel then st.currSched else []).length + 2 ∧
    ((turn_on st now rand args).state.currSched.drop
        (if args.nocancel then st.currSched else []).length).map (fun h => taskKind h.payload) =
      [TaskKind.snap, TaskKind.rearm] ∧
    (turn_on st now rand args).commands.length = 1 := by
  by_cases hm : args.mode.getD "Normal" = "Normal"
  · rw [hm] at hlookup
    simp only [turn_on, hbr, if_false, hlookup, hm, if_true]
    refine ⟨?_, ?_, ?_⟩ <;> simp [List.drop_left, taskKind]
  · simp only [turn_on, hbr, if_false, hlookup, if_neg hm]
    refine ⟨?_, ?_, ?_⟩ <;> simp [List.drop_left, taskKind]

/-- Witness for c8_two_handles at the built-curve state. -/
theorem c8_two_handles_witness :
    (turn_on midnightState 50 1 {}).state.currSched.length =
      (if ({} : TurnOnArgs).nocancel then midnightState.currSched else []).length + 2 ∧
    ((turn_on midnightState 50 1 {}).state.currSched.drop
        (if ({} : TurnOnArgs).nocancel then midnightState.currSched else []).length).map
      (fun h => taskKind h.payload) = [TaskKind.snap, TaskKind.rearm] ∧
    (turn_on midnightState 50 1 {}).commands.length = 1 :=
  c8_two_handles midnightState 50 1 {} (defineTripPointsNormal 0 21600 64800 81000 86399)
    (by decide) (by decide)

/-- The kwargs stored inside a re-arm payload, if the payload is a re-arm. -/
def reArmArgsOf : TaskPayload → Option TurnOnArgs
  | .reArm a => some a
  | _ => none

/-- A three-point RGB curve. -/
def vividCurve : Curve := [(0, [255, 0, 0]), (100, [0, 255, 0]), (200, [0, 0, 255])]

/-- A state holding `vividCurve` under mode "Vivid". -/
def vividState : RLState :=
  { mode := "Off", brightness := 0, brightnessOverride := 0,
    tripPoints := [("Vivid", vividCurve)],
    currSched := [], nextHid := 0 }

/-- A Vivid-mode request with brightness 200 and override 7. -/
def vividArgs : TurnOnArgs :=
  { mode := some "Vivid", brightness := some 200, brightnessOverride := some 7 }

/-- Claim C9, counterexample: in an RGB-mode cycle invoked with
`brightness_override = 7`, the re-arm handle's stored kwargs omit
`brightness_override`, so the re-invocation will run with the default 0, not
the current invocation's 7. -/
theorem c9_counterexample :
    ((turn_on vividState 50 1 vividArgs).state.currSched.getLast?.bind
        (fun h => reArmArgsOf h.payload)).map (fun a => a.brightnessOverride.getD 0) =
      some 0 ∧
    vividArgs.brightnessOverride.getD 0 = 7 ∧
    (0 : ℚ) ≠ 7 := by
  decide

/-- Claim C9 (amended): the re-arm handle armed by a successful `turn_on` is
the last handle registered; it fires at `time_rem + 1` seconds, carries
`nocancel = True`, the same effective mode, and the same brightness as the
current invocation.  The brightness override is carried only on the Normal
branch; the RGB branch omits it, so an RGB re-invocation reverts to
override 0. -/
theorem c9_rearm (st : RLState) (now : ℤ) (rand : ℚ) (args : TurnOnArgs) (tps : Curve)
    (hlookup : lookupCurve st.tripPoints (args.mode.getD "Normal") = some tps)
    (hbr : args.brightness.getD 255 ≠ 0) :
    ∃ a : TurnOnArgs,
      (turn_on st now rand args).state.currSched.getLast? =
        some ⟨st.nextHid + 1, ((timeRemOf tps now : ℤ) : ℚ) + 1, TaskPayload.reArm a⟩ ∧
      a.nocancel = true ∧
      a.mode.getD "Normal" = args.mode.getD "Normal" ∧
      a.brightness = some (args.brightness.getD 255) ∧
      (args.mode.getD "Normal" = "Normal" →
        a.brightnessOverride = some (args.brightnessOverride.getD 0)) ∧
      (args.mode.getD "Normal" ≠ "Normal" → a.brightnessOverride = none) := by
  by_cases hm : args.mode.getD "Normal" = "Normal"
  · rw [hm] at hlookup
    refine ⟨{ brightness := some (args.brightness.getD 255),
              brightnessOverride := some (args.brightnessOverride.getD 0),
              nocancel := true }, ?_, rfl, by rw [hm]; rfl, rfl, fun _ => rfl, fun hegal => absurd hm hegal⟩
    simp only [turn_on, hbr, if_false, hlookup, hm, if_true]
    rw [show ∀ x y : Handle, [x, y] = [x] ++ [y] from fun x y => rfl]
    rw [← List.append_assoc, List.getLast?_concat]
  · refine ⟨{ mode := some (args.mode.getD "Normal"),
              brightness := some (args.brightness.getD 255), nocancel := true },
      ?_, rfl, rfl, rfl, fun hegal => absurd hegal hm, fun _ => rfl⟩
    simp only [turn_on, hbr, if_false, hlookup, if_neg hm]
    rw [show ∀ x y : Handle, [x, y] = [x] ++ [y] from fun x y => rfl]
    rw [← List.append_assoc, List.getLast?_concat]

/-- Witness for c9_rearm on the Vivid state. -/
theorem c9_rearm_witness :
    ∃ a : TurnOnArgs,
      (turn_on vividState 50 1 vividArgs).state.currSched.getLast? =
        some ⟨vividState.nextHid + 1,
          ((timeRemOf [((0 : ℤ), [(255 : ℚ), 0, 0]), (100, [0, 255, 0]), (200, [0, 0, 255])] 50 : ℤ) : ℚ) + 1,
          TaskPayload.reArm a⟩ ∧
      a.nocancel = true ∧
      a.mode.getD "Normal" = vividArgs.mode.getD "Normal" ∧
      a.brightness = some (vividArgs.brightness.getD 255) ∧
      (vividArgs.mode.getD "Normal" = "Normal" →
        a.brightnessOverride = some (vividArgs.brightnessOverride.getD 0)) ∧
      (vividArgs.mode.getD "Normal" ≠ "Normal" → a.brightnessOverride = none) :=
  c9_rearm vividState 50 1 vividArgs _ (by decide) (by decide)


/-! ## RGB-mode interpolation (C6) -/

/-- Claim C6: for every non-Normal (RGB) mode, the immediate command
interpolates each of the R, G, B channels independently and exactly as
`prev + (next - prev) * ratio`, and the commanded brightness equals the
requested brightness unmodified. -/
theorem c6_rgb_interpolation (st : RLState) (now : ℤ) (rand : ℚ) (args : TurnOnArgs) (tps : Curve)
    (hm : args.mode.getD "Normal" ≠ "Normal")
    (hlookup : lookupCurve st.tripPoints (args.mode.getD "Normal") = some tps)
    (hbr : args.brightness.getD 255 ≠ 0) :
    (turn_on st now rand args).commands =
      [DeviceCmd.turnOnRGB (args.brightness.getD 255)
        [(pyGet tps ((nextIdx tps now : ℤ) - 1)).2.getD 0 0 +
          ((pyGet tps (nextIdx tps now : ℤ)).2.getD 0 0 -
            (pyGet tps ((nextIdx tps now : ℤ) - 1)).2.getD 0 0) * timeRatioOf tps now,
         (pyGet tps ((nextIdx tps now : ℤ) - 1)).2.getD 1 0 +
          ((pyGet tps (nextIdx tps now : ℤ)).2.getD 1 0 -
            (pyGet tps ((nextIdx tps now : ℤ) - 1)).2.getD 1 0) * timeRatioOf tps now,
         (pyGet tps ((nextIdx tps now : ℤ) - 1)).2.getD 2 0 +
          ((pyGet tps (nextIdx tps now : ℤ)).2.getD 2 0 -
            (pyGet tps ((nextIdx tps now : ℤ) - 1)).2.getD 2 0) * timeRatioOf tps now]
        (args.transition.getD onTransition)] := by
  simp only [turn_on]
  simp only [hbr, if_false, hlookup, if_neg hm]
  simp [rgbCalcOf, mkRgbCalc]

/-- Witness for c6_rgb_interpolation on the Vivid state at `now = 50`. -/
theorem c6_rgb_interpolation_witness :
    (turn_on vividState 50 1 vividArgs).commands =
      [DeviceCmd.turnOnRGB (vividArgs.brightness.getD 255)
        [(pyGet vividCurve ((nextIdx vividCurve 50 : ℤ) - 1)).2.getD 0 0 +
          ((pyGet vividCurve (nextIdx vividCurve 50 : ℤ)).2.getD 0 0 -
            (pyGet vividCurve ((nextIdx vividCurve 50 : ℤ) - 1)).2.getD 0 0) * timeRatioOf vividCurve 50,
         (pyGet vividCurve ((nextIdx vividCurve 50 : ℤ) - 1)).2.getD 1 0 +
          ((pyGet vividCurve (nextIdx vividCurve 50 : ℤ)).2.getD 1 0 -
            (pyGet vividCurve ((nextIdx vividCurve 50 : ℤ) - 1)).2.getD 1 0) * timeRatioOf vividCurve 50,
         (pyGet vividCurve ((nextIdx vividCurve 50 : ℤ) - 1)).2.getD 2 0 +
          ((pyGet vividCurve (nextIdx vividCurve 50 : ℤ)).2.getD 2 0 -
            (pyGet vividCurve ((nextIdx vividCurve 50 : ℤ) - 1)).2.getD 2 0) * timeRatioOf vividCurve 50]
        (vividArgs.transition.getD onTransition)] :=
  c6_rgb_interpolation vividState 50 1 vividArgs vividCurve (by decide) (by decide) (by decide)


/-! ## Cyclic palette generation (C10) -/

/-- The claim's `ceil(D/s)`, via the rational ceiling. -/
def ceilSteps (d s : ℤ) : ℕ := (⌈(d : ℚ) / (s : ℚ)⌉).toNat

/-- An empty walk: no steps when the span is gone. -/
theorem ceilSteps_nonpos (d s : ℤ) (hs : 0 < s) (hd : d ≤ 0) : ceilSteps d s = 0 := by
  have hs0 : (0 : ℚ) ≤ (s : ℚ) := by exact_mod_cast le_of_lt hs
  have hdq : (d : ℚ) ≤ 0 := by exact_mod_cast hd
  have h2 : ⌈(d : ℚ) / (s : ℚ)⌉ ≤ 0 := by
    rw [Int.ceil_le, Int.cast_zero]
    exact div_nonpos_of_nonpos_of_nonneg hdq hs0
  simp [ceilSteps, Int.toNat_eq_zero.mpr h2]

/-- One step of the walk removes `s` from the span and one from the count. -/
theorem ceilSteps_pos_step (d s : ℤ) (hs : 0 < s) (hd : 0 < d) :
    ceilSteps d s = ceilSteps (d - s) s + 1 := by
  have hs0 : (0 : ℚ) < (s : ℚ) := by exact_mod_cast hs
  have hsub : ((d - s : ℤ) : ℚ) / (s : ℚ) = (d : ℚ) / (s : ℚ) - 1 := by
    push_cast
    rw [sub_div, div_self hs0.ne']
  have hceil : ⌈((d - s : ℤ) : ℚ) / (s : ℚ)⌉ = ⌈(d : ℚ) / (s : ℚ)⌉ - 1 := by
    rw [hsub]
    exact_mod_cast Int.ceil_sub_int ((d : ℚ) / (s : ℚ)) 1
  have hpos : 0 < ⌈(d : ℚ) / (s : ℚ)⌉ :=
    Int.ceil_pos.mpr (div_pos (by exact_mod_cast hd) hs0)
  rw [ceilSteps, ceilSteps, hceil]
  omega

/-- Closed form of the palette walk from an arbitrary start and pointer:
it produces `ceil((midnightLate - temp)/s)` key points; the i-th sits at
`temp + i*s` and carries `palette[(ptr + i) mod k]`. -/
theorem enumFrom_eq (midnightLate s : ℤ) (pal : List (List ℚ)) (hs : 0 < s)
    (temp : ℤ) (ptr : ℕ) (hptr : ptr < pal.length) :
    enumFrom midnightLate s pal temp ptr =
      (List.range (ceilSteps (midnightLate - temp) s)).map
        (fun i : ℕ => ((temp + (i : ℤ) * s : ℤ), pal.getD ((ptr + i) % pal.length) [])) := by
  rw [enumFrom]
  by_cases h : temp < midnightLate
  · rw [dif_pos ⟨h, hs⟩]
    have hptr2 : (if ptr + 1 ≥ pal.length then 0 else ptr + 1) < pal.length := by
      split <;> omega
    rw [enumFrom_eq midnightLate s pal hs (temp + s) _ hptr2]
    have hc : ceilSteps (midnightLate - temp) s = ceilSteps (midnightLate - (temp + s)) s + 1 := by
      rw [ceilSteps_pos_step (midnightLate - temp) s hs (by omega)]
      have : midnightLate - temp - s = midnightLate - (temp + s) := by omega
      rw [this]
    rw [hc, List.range_succ_eq_map, List.map_cons, List.map_map]
    have hhead : ((temp, pal.getD ptr []) : TripPoint) =
        (temp + ((0 : ℕ) : ℤ) * s, pal.getD ((ptr + 0) % pal.length) []) := by
      simp [Nat.mod_eq_of_lt hptr]
    rw [hhead]
    congr 1
    apply List.map_congr_left
    intro i _
    have hptr3 : (if ptr + 1 ≥ pal.length then 0 else ptr + 1) = (ptr + 1) % pal.length := by
      split
      · have hlen : ptr + 1 = pal.length := by omega
        rw [hlen, Nat.mod_self]
      · rw [Nat.mod_eq_of_lt (by omega)]
    simp only [Function.comp_apply, Prod.mk.injEq]
    constructor
    · push_cast
      ring
    · rw [hptr3, Nat.mod_add_mod]
      have harg : ptr + 1 + i = ptr + i.succ := by omega
      rw [harg]
  · rw [dif_neg (fun hx => h hx.1)]
    rw [ceilSteps_nonpos _ s hs (by omega)]
    simp
termination_by (midnightLate - temp).toNat
decreasing_by omega

/-- Claim C10: for a palette of length `k` and a positive step `s`, the walk
from local midnight toward end-of-day produces exactly `ceil(D/s)` key
points, where `D` is the span from midnight to end-of-day; the i-th key
point has timestamp `midnight + i*s` and value `palette[i mod k]`. -/
theorem c10_cyclic_palette (midnightEarly midnightLate s : ℤ) (pal : List (List ℚ))
    (hs : 0 < s) (hpal : 0 < pal.length) :
    (enumerateTripPoints midnightEarly midnightLate s pal).length =
      (⌈((midnightLate - midnightEarly : ℤ) : ℚ) / (s : ℚ)⌉).toNat ∧
    ∀ i : ℕ, i < (enumerateTripPoints midnightEarly midnightLate s pal).length →
      (enumerateTripPoints midnightEarly midnightLate s pal).getD i (0, []) =
        (midnightEarly + (i : ℤ) * s, pal.getD (i % pal.length) []) := by
  have he := enumFrom_eq midnightLate s pal hs midnightEarly 0 hpal
  rw [enumerateTripPoints, he]
  constructor
  · simp [ceilSteps]
  · intro i hi
    simp only [List.length_map, List.length_range] at hi
    rw [List.getD_eq_getElem _ _ (by simpa using hi)]
    simp

/-- Witness for c10_cyclic_palette: span 10, step 3, two-colour palette —
four key points at 0, 3, 6, 9, alternating the colours. -/
theorem c10_cyclic_palette_witness :
    (enumerateTripPoints 0 10 3 [[1], [2]]).length =
      (⌈((10 - 0 : ℤ) : ℚ) / ((3 : ℤ) : ℚ)⌉).toNat ∧
    ∀ i : ℕ, i < (enumerateTripPoints 0 10 3 [[1], [2]]).length →
      (enumerateTripPoints 0 10 3 [[1], [2]]).getD i (0, []) =
        ((0 : ℤ) + (i : ℤ) * 3, [[(1 : ℚ)], [2]].getD (i % [[(1 : ℚ)], [2]].length) []) :=
  c10_cyclic_palette 0 10 3 [[1], [2]] (by decide) (by decide)

end RightLight
